import Mathlib

/-!
Verification of the socket/event-distribution layer of the HomeSM client
(`SocketContext` provider).  The definitions below are a shallow embedding
of that provider: the credential normalization and `io(...)` configuration,
the inbound wire-event handlers (`handleConnect`, `handleReceiveMessage`,
`handleIncomingCall`, `handleCallCancelled`), the named-event bindings
together with the `onAny` catch-all fallback, the guarded outbound
operations (`sendMessage`, `joinConversation`, `leaveConversation`,
`rejectCall`), and the subscriber registries backing `subscribeToMessages`
and `subscribeToIncomingCalls`.  JavaScript `Set` iteration is modelled by
an insertion-ordered duplicate-free list; a subscriber callback that may
throw is modelled as a function into `Except`; the `try`/`catch` around
each callback invocation is modelled explicitly in the dispatch loop.
-/

set_option autoImplicit false

namespace SocketContext

/-- The `Message` entity received from the wire (the `Message` interface of
the provider).  `Date` is modelled as milliseconds since the epoch;
JavaScript `number` fields are modelled as rationals. -/
structure Message where
  _id : String
  conversationId : Option String := none
  senderId : String
  senderRole : Option String := none
  content : String
  timestamp : Nat
  isRead : Option Bool := none
  messageType : Option String := none
  contentType : Option String := none
  voiceDuration : Option String := none
  voiceUrl : Option String := none
  imageUrl : Option String := none
  videoUrl : Option String := none
  videoDuration : Option String := none
  isUploading : Option Bool := none
  uploadProgress : Option ℚ := none
  videoWidth : Option ℚ := none
  videoHeight : Option ℚ := none
  aspectRatioValue : Option ℚ := none
  fileUrl : Option String := none
  localFileUri : Option String := none
  isCallRecord : Option Bool := none
  callerId : Option String := none
  callDuration : Option String := none
  missed : Option Bool := none
  rejected : Option Bool := none
  latitude : Option ℚ := none
  longitude : Option ℚ := none
  locationName : Option String := none
  address : Option String := none
deriving DecidableEq, Repr

/-- Payload of the `incoming_call` / `call_cancelled` wire events:
`{ callId, callerId, recipientId, conversationId }`, plus the `eventType`
field that `handleCallCancelled` adds by object spread. -/
structure CallData where
  callId : String
  callerId : String
  recipientId : String
  conversationId : String
  eventType : Option String := none
deriving DecidableEq, Repr

/-- JavaScript `s.startsWith(p)`, modelled as a code-unit prefix test on
the characters of the two strings. -/
def jsStartsWith (s p : String) : Bool :=
  p.data.isPrefixOf s.data

/-- Credential normalization performed before the handshake: a raw token
starting with the scheme prefix is stripped of its first seven characters
(`substring(7)`); any other token is used unchanged. -/
def processToken (userToken : String) : String :=
  if jsStartsWith userToken "Bearer " then userToken.drop 7 else userToken

/-- The `auth` record of the handshake payload. -/
structure IoAuth where
  token : String
deriving DecidableEq, Repr

/-- Configuration record passed to `io(BASE_URL, {...})`. -/
structure IoConfig where
  auth : IoAuth
  transports : List String
  timeout : Nat
  reconnection : Bool
  reconnectionAttempts : Nat
  reconnectionDelay : Nat
  reconnectionDelayMax : Nat
  randomizationFactor : ℚ
  forceNew : Bool
deriving DecidableEq, Repr

/-- The concrete `io(...)` configuration the provider builds from the raw
user token. -/
def ioConfig (userToken : String) : IoConfig :=
  { auth := { token := processToken userToken }
    transports := ["websocket", "polling"]
    timeout := 3000
    reconnection := true
    reconnectionAttempts := 30
    reconnectionDelay := 100
    reconnectionDelayMax := 800
    randomizationFactor := 1 / 10
    forceNew := false }

/-- A message subscriber: an identity plus the callback body, which either
returns normally or throws the recorded error message. -/
structure MsgCallback where
  id : Nat
  run : Message → Except String Unit

/-- A call subscriber (subscribers to `incoming_call` / `call_cancelled`). -/
structure CallCallback where
  id : Nat
  run : CallData → Except String Unit

/-- Result of one dispatch loop over the call-subscriber set: the
invocations performed (subscriber id paired with the payload it was passed,
in iteration order) and the errors caught and logged by the per-callback
`try`/`catch`. -/
structure DispatchLog (α : Type) where
  invocations : List (Nat × α)
  caughtErrors : List (Nat × String)
deriving DecidableEq, Repr

/-- The `forEach` loop of `handleReceiveMessage`: every subscriber is
invoked with the message; a throw is caught and logged and the loop
continues with the next subscriber. -/
def notifyMessageSubscribers : List MsgCallback → Message → DispatchLog Message
  | [], _ => { invocations := [], caughtErrors := [] }
  | cb :: rest, m =>
    let tail := notifyMessageSubscribers rest m
    match cb.run m with
    | Except.ok _ => { invocations := (cb.id, m) :: tail.invocations
                       caughtErrors := tail.caughtErrors }
    | Except.error e => { invocations := (cb.id, m) :: tail.invocations
                          caughtErrors := (cb.id, e) :: tail.caughtErrors }

/-- The `forEach` loop shared by `handleIncomingCall` and
`handleCallCancelled`: every call subscriber is invoked with the payload;
a throw is caught and logged and the loop continues. -/
def notifyCallSubscribers : List CallCallback → CallData → DispatchLog CallData
  | [], _ => { invocations := [], caughtErrors := [] }
  | cb :: rest, d =>
    let tail := notifyCallSubscribers rest d
    match cb.run d with
    | Except.ok _ => { invocations := (cb.id, d) :: tail.invocations
                       caughtErrors := tail.caughtErrors }
    | Except.error e => { invocations := (cb.id, d) :: tail.invocations
                          caughtErrors := (cb.id, e) :: tail.caughtErrors }

/-- Result of `handleReceiveMessage`: the dispatch log plus the unread
counter after the functional update `prev => prev + 1`. -/
structure ReceiveMessageResult where
  log : DispatchLog Message
  newUnreadCount : Nat
deriving DecidableEq, Repr

/-- The `receive_message` / `message` handler: notify every message
subscriber (errors isolated per callback), then increment the unread
counter by one. -/
def handleReceiveMessage (subs : List MsgCallback) (m : Message)
    (unreadCount : Nat) : ReceiveMessageResult :=
  { log := notifyMessageSubscribers subs m
    newUnreadCount := unreadCount + 1 }

/-- The `call_cancelled` handler: notify every call subscriber with the
original payload spread together with `eventType: call_cancelled`.  It
consults neither the permission provider nor the application activity
state, and keeps no memory of earlier calls. -/
def handleCallCancelled (subs : List CallCallback) (callData : CallData) :
    DispatchLog CallData :=
  notifyCallSubscribers subs { callData with eventType := some "call_cancelled" }

/-- The platform the provider runs on (`Platform.OS`). -/
inductive ClientPlatform where
  | ios
  | android
deriving DecidableEq, Repr

/-- The application activity state reported by `AppState.currentState`. -/
inductive ClientAppState where
  | active
  | background
  | inactive
deriving DecidableEq, Repr

/-- Outcome environment of the asynchronous microphone permission calls
made by `handleIncomingCall`: the result of the initial check and the
result of the follow-up request.  `Except.error` models the call throwing
(a rejected promise), which the surrounding `try`/`catch` absorbs. -/
structure PermissionEnv where
  checkResult : Except String Bool
  requestResult : Except String Bool

/-- Tests whether a permission call threw. -/
def permCallThrew (r : Except String Bool) : Bool :=
  match r with
  | Except.error _ => true
  | Except.ok _ => false

/-- Result of the permission phase of `handleIncomingCall`: either the
denial path (one alert, early return) or the continue path carrying the
permission errors that were caught and logged. -/
structure PermissionPhaseResult where
  denied : Bool
  permissionPrompts : Nat
  permissionErrorsLogged : List String
deriving DecidableEq, Repr

/-- The permission phase of `handleIncomingCall`: check the microphone
permission; when not granted, request it; when the request is also not
granted, show the settings alert and take the early-return path.  A throw
from either call is caught, logged and the handler continues best-effort. -/
def incomingCallPermissionPhase (env : PermissionEnv) : PermissionPhaseResult :=
  match env.checkResult with
  | Except.error e =>
    { denied := false, permissionPrompts := 0, permissionErrorsLogged := [e] }
  | Except.ok true =>
    { denied := false, permissionPrompts := 0, permissionErrorsLogged := [] }
  | Except.ok false =>
    match env.requestResult with
    | Except.error e =>
      { denied := false, permissionPrompts := 0, permissionErrorsLogged := [e] }
    | Except.ok true =>
      { denied := false, permissionPrompts := 0, permissionErrorsLogged := [] }
    | Except.ok false =>
      { denied := true, permissionPrompts := 1, permissionErrorsLogged := [] }

/-- Full result of one run of `handleIncomingCall`. -/
structure IncomingCallResult where
  permissionPrompts : Nat
  permissionErrorsLogged : List String
  iosNotifications : List CallData
  immediateReconnect : Bool
  scheduledReconnectDelayMs : Option Nat
  log : DispatchLog CallData
deriving DecidableEq, Repr

/-- The `incoming_call` handler.  Permission phase first: on denial the
handler alerts once and returns without touching the subscriber set.
Otherwise the iOS-specific branch runs (foreground: immediate connection
warm-up when the socket is disconnected; background: a local incoming-call
notification plus a 50 ms delayed warm-up), and finally every call
subscriber is notified with the unmodified payload, each invocation under
its own `try`/`catch`. -/
def handleIncomingCall (env : PermissionEnv) (platform : ClientPlatform)
    (appState : ClientAppState) (socketDisconnected : Bool)
    (subs : List CallCallback) (callData : CallData) : IncomingCallResult :=
  let perm := incomingCallPermissionPhase env
  if perm.denied then
    { permissionPrompts := perm.permissionPrompts
      permissionErrorsLogged := perm.permissionErrorsLogged
      iosNotifications := []
      immediateReconnect := false
      scheduledReconnectDelayMs := none
      log := { invocations := [], caughtErrors := [] } }
  else
    let iosForeground := platform = ClientPlatform.ios ∧ appState = ClientAppState.active
    let iosBackground := platform = ClientPlatform.ios ∧ appState ≠ ClientAppState.active
    { permissionPrompts := perm.permissionPrompts
      permissionErrorsLogged := perm.permissionErrorsLogged
      iosNotifications := if iosBackground then [callData] else []
      immediateReconnect := if iosForeground then socketDisconnected else false
      scheduledReconnectDelayMs := if iosBackground then some 50 else none
      log := notifyCallSubscribers subs callData }

/-- Effects of the `connect` handler: the connected flag is set, the global
socket reference is published, nothing is emitted synchronously, and a
single `get_offline_messages` emission is scheduled behind a 1000 ms
settle timeout. -/
structure ConnectEffects where
  setConnected : Bool
  setsGlobalSocketRef : Bool
  immediateEmits : List String
  scheduledEmits : List (Nat × String)
deriving DecidableEq, Repr

/-- The `connect` handler of the provider. -/
def handleConnect : ConnectEffects :=
  { setConnected := true
    setsGlobalSocketRef := true
    immediateEmits := []
    scheduledEmits := [(1000, "get_offline_messages")] }

/-- Internal handlers the provider binds to wire events. -/
inductive HandlerTag where
  | connect
  | disconnect
  | connectError
  | receiveMessage
  | incomingCall
  | callCancelled
  | offlineMessagesDelivered
deriving DecidableEq, Repr

/-- The named-event bindings installed with `socket.on`: each inbound event
name is routed to its handler, with `receive_message` and `message` both
bound to `handleReceiveMessage`. -/
def namedHandlers (eventName : String) : List HandlerTag :=
  if eventName = "connect" then [HandlerTag.connect]
  else if eventName = "disconnect" then [HandlerTag.disconnect]
  else if eventName = "connect_error" then [HandlerTag.connectError]
  else if eventName = "receive_message" then [HandlerTag.receiveMessage]
  else if eventName = "message" then [HandlerTag.receiveMessage]
  else if eventName = "incoming_call" then [HandlerTag.incomingCall]
  else if eventName = "call_cancelled" then [HandlerTag.callCancelled]
  else if eventName = "offline_messages_delivered" then
    [HandlerTag.offlineMessagesDelivered]
  else []

/-- The `socket.onAny` fallback listener: it observes every inbound event
and, when the event name is `incoming_call` or `call_cancelled` and a
payload is present, re-invokes the corresponding handler directly. -/
def onAnyHandlers (eventName : String) (payloadPresent : Bool) : List HandlerTag :=
  if eventName = "incoming_call" then
    if payloadPresent then [HandlerTag.incomingCall] else []
  else if eventName = "call_cancelled" then
    if payloadPresent then [HandlerTag.callCancelled] else []
  else []

/-- Handlers that run for one inbound wire event.  Per the socket.io client
dispatch, catch-all listeners registered with `onAny` run for every inbound
custom event, in addition to (before) the listeners registered under the
name of the event itself; both paths fire for the same event. -/
def firedHandlers (eventName : String) (payloadPresent : Bool) : List HandlerTag :=
  onAnyHandlers eventName payloadPresent ++ namedHandlers eventName

/-- Subscriber invocations produced by one inbound `incoming_call` wire
event: every fired handler runs `handleIncomingCall`, and their dispatch
logs concatenate. -/
def wireIncomingCallInvocations (env : PermissionEnv) (platform : ClientPlatform)
    (appState : ClientAppState) (socketDisconnected : Bool)
    (subs : List CallCallback) (callData : CallData) : List (Nat × CallData) :=
  (firedHandlers "incoming_call" true).foldr
    (fun tag acc =>
      if tag = HandlerTag.incomingCall then
        (handleIncomingCall env platform appState socketDisconnected
          subs callData).log.invocations ++ acc
      else acc) []

/-- Observable provider state relevant to the guarded outbound operations. -/
structure ProviderState where
  socketPresent : Bool
  isConnected : Bool
  unreadMessageCount : Nat
  messageSubscribers : List Nat
  callSubscribers : List Nat
deriving DecidableEq, Repr

/-- Payloads emitted on the wire by the outbound operations. -/
inductive Emission where
  | sendMessage (messageData : String)
  | joinConversation (conversationId : String)
  | leaveConversation (conversationId : String)
  | rejectCall (callId : String) (recipientId : String)
      (conversationId : Option String)
deriving DecidableEq, Repr

/-- The guard shared by every outbound operation:
`socketRef.current && isConnected`. -/
def socketReady (st : ProviderState) : Bool :=
  st.socketPresent && st.isConnected

/-- The `sendMessage` operation: emit `send_message` when the socket is
present and connected, otherwise only warn. -/
def sendMessage (st : ProviderState) (messageData : String) :
    ProviderState × List Emission :=
  if socketReady st then (st, [Emission.sendMessage messageData]) else (st, [])

/-- The `joinConversation` operation. -/
def joinConversation (st : ProviderState) (conversationId : String) :
    ProviderState × List Emission :=
  if socketReady st then (st, [Emission.joinConversation conversationId])
  else (st, [])

/-- The `leaveConversation` operation. -/
def leaveConversation (st : ProviderState) (conversationId : String) :
    ProviderState × List Emission :=
  if socketReady st then (st, [Emission.leaveConversation conversationId])
  else (st, [])

/-- The `rejectCall` operation: emit `reject_call` with the structured
payload when the socket is present and connected, otherwise only warn. -/
def rejectCall (st : ProviderState) (callId : String) (recipientId : String)
    (conversationId : Option String) : ProviderState × List Emission :=
  if socketReady st then
    (st, [Emission.rejectCall callId recipientId conversationId])
  else (st, [])

/-- JavaScript `Set.add` on a subscriber registry, with the `Set` modelled
as its insertion-ordered element list: adding an element already present is
a no-op, otherwise the element is appended.  Both `subscribeToMessages` and
`subscribeToIncomingCalls` register callbacks this way, on their own
registries. -/
def subscribeAdd (s : List Nat) (c : Nat) : List Nat :=
  if c ∈ s then s else s ++ [c]

/-- JavaScript `Set.delete` on a subscriber registry: the element is
removed, which is what the unsubscribe closure returned by the subscribe
functions performs. -/
def unsubscribeRemove (s : List Nat) (c : Nat) : List Nat :=
  s.filter (fun x => x != c)

/-- Administrative and delivery actions on one subscriber registry,
interleaved in program order. -/
inductive SubOp where
  | subscribe (c : Nat)
  | unsubscribe (c : Nat)
  | publish (e : Nat)
deriving DecidableEq, Repr

/-- Effect of one action on the registry: subscribe adds, unsubscribe
removes, and a publish dispatches without changing the registry. -/
def stepSubs (s : List Nat) (op : SubOp) : List Nat :=
  match op with
  | SubOp.subscribe c => subscribeAdd s c
  | SubOp.unsubscribe c => unsubscribeRemove s c
  | SubOp.publish _ => s

/-- Registry contents after running a trace from the given registry. -/
def runSubsFrom (s : List Nat) (ops : List SubOp) : List Nat :=
  ops.foldl stepSubs s

/-- Registry contents after running a trace from the empty registry the
provider starts with. -/
def runSubs (ops : List SubOp) : List Nat :=
  runSubsFrom [] ops

/-- Delivery log of a trace run from a given registry: one entry per
publish, recording the registry snapshot the dispatch iterates over
(`forEach` over the current set) and the event published. -/
def runLogFrom : List Nat → List SubOp → List (List Nat × Nat)
  | _, [] => []
  | s, SubOp.subscribe c :: rest => runLogFrom (subscribeAdd s c) rest
  | s, SubOp.unsubscribe c :: rest => runLogFrom (unsubscribeRemove s c) rest
  | s, SubOp.publish e :: rest => (s, e) :: runLogFrom s rest

/-- Delivery log of a trace run from the empty registry. -/
def runLog (ops : List SubOp) : List (List Nat × Nat) :=
  runLogFrom [] ops

/-- Modelled from the spec: a callback is registered at a point of the
trace when the last subscribe/unsubscribe action that names it, starting
from the given registration status, is a subscribe.  This is the
declarative notion of registration the operational registry is compared
against. -/
def specRegisteredFrom (r : Bool) (ops : List SubOp) (c : Nat) : Bool :=
  ops.foldl
    (fun acc op =>
      match op with
      | SubOp.subscribe d => if d = c then true else acc
      | SubOp.unsubscribe d => if d = c then false else acc
      | SubOp.publish _ => acc) r

/-- Modelled from the spec: registration status after a trace starting
from an empty registry (initially not registered). -/
def specRegistered (ops : List SubOp) (c : Nat) : Bool :=
  specRegisteredFrom false ops c

/-- The error entry that dispatching to a message subscriber leaves in the
catch log: nothing when the callback returns, its id and error when it
throws. -/
def msgCaughtEntry (m : Message) (cb : MsgCallback) : Option (Nat × String) :=
  match cb.run m with
  | Except.ok _ => none
  | Except.error e => some (cb.id, e)

/-- The error entry that dispatching to a call subscriber leaves in the
catch log. -/
def callCaughtEntry (d : CallData) (cb : CallCallback) : Option (Nat × String) :=
  match cb.run d with
  | Except.ok _ => none
  | Except.error e => some (cb.id, e)

theorem notifyMessageSubscribers_invocations (subs : List MsgCallback)
    (m : Message) :
    (notifyMessageSubscribers subs m).invocations
      = subs.map (fun cb => (cb.id, m)) := by
  induction subs with
  | nil => rfl
  | cons cb rest ih =>
    cases h : cb.run m with
    | ok v => simp [notifyMessageSubscribers, h, ih]
    | error e => simp [notifyMessageSubscribers, h, ih]

theorem notifyMessageSubscribers_caughtErrors (subs : List MsgCallback)
    (m : Message) :
    (notifyMessageSubscribers subs m).caughtErrors
      = subs.filterMap (msgCaughtEntry m) := by
  induction subs with
  | nil => rfl
  | cons cb rest ih =>
    cases h : cb.run m with
    | ok v => simp [notifyMessageSubscribers, msgCaughtEntry, h, ih]
    | error e => simp [notifyMessageSubscribers, msgCaughtEntry, h, ih]

theorem notifyCallSubscribers_invocations (subs : List CallCallback)
    (d : CallData) :
    (notifyCallSubscribers subs d).invocations
      = subs.map (fun cb => (cb.id, d)) := by
  induction subs with
  | nil => rfl
  | cons cb rest ih =>
    cases h : cb.run d with
    | ok v => simp [notifyCallSubscribers, h, ih]
    | error e => simp [notifyCallSubscribers, h, ih]

theorem notifyCallSubscribers_caughtErrors (subs : List CallCallback)
    (d : CallData) :
    (notifyCallSubscribers subs d).caughtErrors
      = subs.filterMap (callCaughtEntry d) := by
  induction subs with
  | nil => rfl
  | cons cb rest ih =>
    cases h : cb.run d with
    | ok v => simp [notifyCallSubscribers, callCaughtEntry, h, ih]
    | error e => simp [notifyCallSubscribers, callCaughtEntry, h, ih]

theorem mem_subscribeAdd {s : List Nat} {c x : Nat} :
    x ∈ subscribeAdd s c ↔ x ∈ s ∨ x = c := by
  by_cases h : c ∈ s
  · simp only [subscribeAdd, if_pos h]
    constructor
    · exact Or.inl
    · rintro (hx | rfl)
      · exact hx
      · exact h
  · simp [subscribeAdd, if_neg h]

theorem mem_unsubscribeRemove {s : List Nat} {c x : Nat} :
    x ∈ unsubscribeRemove s c ↔ x ∈ s ∧ x ≠ c := by
  simp [unsubscribeRemove, List.mem_filter]

theorem nodup_subscribeAdd {s : List Nat} {c : Nat} (h : s.Nodup) :
    (subscribeAdd s c).Nodup := by
  by_cases hc : c ∈ s
  · simpa [subscribeAdd, if_pos hc] using h
  · simp [subscribeAdd, if_neg hc, List.nodup_append, h, hc]

theorem nodup_unsubscribeRemove {s : List Nat} {c : Nat} (h : s.Nodup) :
    (unsubscribeRemove s c).Nodup :=
  h.filter _

theorem runSubsFrom_cons (s : List Nat) (op : SubOp) (rest : List SubOp) :
    runSubsFrom s (op :: rest) = runSubsFrom (stepSubs s op) rest := rfl

theorem nodup_stepSubs {s : List Nat} (op : SubOp) (h : s.Nodup) :
    (stepSubs s op).Nodup := by
  cases op with
  | subscribe c => exact nodup_subscribeAdd h
  | unsubscribe c => exact nodup_unsubscribeRemove h
  | publish e => exact h

theorem nodup_runSubsFrom (ops : List SubOp) :
    ∀ s : List Nat, s.Nodup → (runSubsFrom s ops).Nodup := by
  induction ops with
  | nil => intro s h; exact h
  | cons op rest ih =>
    intro s h
    rw [runSubsFrom_cons]
    exact ih _ (nodup_stepSubs op h)

theorem specRegisteredFrom_cons (r : Bool) (op : SubOp) (rest : List SubOp)
    (c : Nat) :
    specRegisteredFrom r (op :: rest) c
      = specRegisteredFrom
          (match op with
           | SubOp.subscribe d => if d = c then true else r
           | SubOp.unsubscribe d => if d = c then false else r
           | SubOp.publish _ => r) rest c := rfl

theorem decide_mem_subscribeAdd (s : List Nat) (d c : Nat) :
    decide (c ∈ subscribeAdd s d) = if d = c then true else decide (c ∈ s) := by
  by_cases hdc : d = c
  · subst hdc
    simp [mem_subscribeAdd]
  · rw [if_neg hdc, decide_eq_decide, mem_subscribeAdd]
    constructor
    · rintro (hx | rfl)
      · exact hx
      · exact absurd rfl hdc
    · exact Or.inl

theorem decide_mem_unsubscribeRemove (s : List Nat) (d c : Nat) :
    decide (c ∈ unsubscribeRemove s d)
      = if d = c then false else decide (c ∈ s) := by
  by_cases hdc : d = c
  · subst hdc
    simp [mem_unsubscribeRemove]
  · rw [if_neg hdc, decide_eq_decide, mem_unsubscribeRemove]
    constructor
    · exact And.left
    · intro hx
      exact ⟨hx, fun hcd => hdc (hcd ▸ rfl)⟩

theorem mem_runSubsFrom (ops : List SubOp) :
    ∀ (s : List Nat) (c : Nat),
      c ∈ runSubsFrom s ops ↔ specRegisteredFrom (decide (c ∈ s)) ops c = true := by
  induction ops with
  | nil =>
    intro s c
    simp [runSubsFrom, specRegisteredFrom]
  | cons op rest ih =>
    intro s c
    rw [runSubsFrom_cons, ih, specRegisteredFrom_cons]
    cases op with
    | subscribe d =>
      rw [show stepSubs s (SubOp.subscribe d) = subscribeAdd s d from rfl,
        decide_mem_subscribeAdd]
    | unsubscribe d =>
      rw [show stepSubs s (SubOp.unsubscribe d) = unsubscribeRemove s d from rfl,
        decide_mem_unsubscribeRemove]
    | publish e => rfl

theorem count_runSubs (ops : List SubOp) (c : Nat) :
    (runSubs ops).count c = if specRegistered ops c = true then 1 else 0 := by
  have hnd : (runSubs ops).Nodup := nodup_runSubsFrom ops [] List.nodup_nil
  have hmem : c ∈ runSubs ops ↔ specRegistered ops c = true := by
    have h := mem_runSubsFrom ops [] c
    simpa [specRegistered] using h
  by_cases h : specRegistered ops c = true
  · rw [if_pos h]
    exact List.count_eq_one_of_mem hnd (hmem.mpr h)
  · rw [if_neg h]
    exact List.count_eq_zero_of_not_mem (fun hc => h (hmem.mp hc))

theorem runLogFrom_append (pre : List SubOp) :
    ∀ (s : List Nat) (post : List SubOp),
      runLogFrom s (pre ++ post)
        = runLogFrom s pre ++ runLogFrom (runSubsFrom s pre) post := by
  induction pre with
  | nil =>
    intro s post
    simp [runLogFrom, runSubsFrom]
  | cons op rest ih =>
    intro s post
    cases op with
    | subscribe c => simp [runLogFrom, runSubsFrom_cons, stepSubs, ih]
    | unsubscribe c => simp [runLogFrom, runSubsFrom_cons, stepSubs, ih]
    | publish e => simp [runLogFrom, runSubsFrom_cons, stepSubs, ih]

theorem count_map_pair (P : CallData) (l : List CallCallback) (i : Nat) :
    (l.map (fun cb => (cb.id, P))).count (i, P)
      = (l.map (fun cb => cb.id)).count i := by
  induction l with
  | nil => rfl
  | cons cb rest ih =>
    simp [List.count_cons, ih, Prod.ext_iff]

/-- Sample message payload used by the concrete instantiations below. -/
def sampleMessage : Message :=
  { _id := "m1", senderId := "s1", content := "hi", timestamp := 0 }

/-- Sample incoming-call payload. -/
def sampleCallData : CallData :=
  { callId := "c1", callerId := "a1", recipientId := "r1", conversationId := "v1" }

/-- Permission environment in which the check already succeeds. -/
def grantedEnv : PermissionEnv :=
  { checkResult := Except.ok true, requestResult := Except.ok true }

/-- Permission environment in which both the check and the request come
back not granted. -/
def deniedEnv : PermissionEnv :=
  { checkResult := Except.ok false, requestResult := Except.ok false }

/-- Permission environment in which the check itself throws. -/
def throwingCheckEnv : PermissionEnv :=
  { checkResult := Except.error "perm check failed", requestResult := Except.ok false }

/-- A message subscriber that returns normally. -/
def okMsgCallback : MsgCallback :=
  { id := 0, run := fun _ => Except.ok () }

/-- A message subscriber that throws. -/
def throwingMsgCallback : MsgCallback :=
  { id := 1, run := fun _ => Except.error "cb failed" }

/-- A call subscriber that returns normally. -/
def okCallCallback : CallCallback :=
  { id := 0, run := fun _ => Except.ok () }

/-- A call subscriber that throws. -/
def throwingCallCallback : CallCallback :=
  { id := 1, run := fun _ => Except.error "cb failed" }

/-- C1: for every dispatch of an inbound message or call event to the
registered subscriber set, a throw from one callback is caught and logged
(it appears in the catch log), every callback in the dispatch is still
invoked with the same event, and the handler returns normally (the
dispatch result is a total value, so nothing propagates to the wire-event
handler). -/
theorem dispatch_isolates_callback_errors
    (msubs : List MsgCallback) (m : Message) (unread : Nat)
    (csubs : List CallCallback) (cd : CallData)
    (env : PermissionEnv) (platform : ClientPlatform)
    (appState : ClientAppState) (socketDisconnected : Bool) :
    (handleReceiveMessage msubs m unread).log.invocations
        = msubs.map (fun cb => (cb.id, m))
    ∧ (handleReceiveMessage msubs m unread).log.caughtErrors
        = msubs.filterMap (msgCaughtEntry m)
    ∧ (handleCallCancelled csubs cd).invocations
        = csubs.map (fun cb => (cb.id, { cd with eventType := some "call_cancelled" }))
    ∧ (handleCallCancelled csubs cd).caughtErrors
        = csubs.filterMap (callCaughtEntry { cd with eventType := some "call_cancelled" })
    ∧ ((incomingCallPermissionPhase env).denied = false →
        (handleIncomingCall env platform appState socketDisconnected csubs cd).log.invocations
            = csubs.map (fun cb => (cb.id, cd))
        ∧ (handleIncomingCall env platform appState socketDisconnected csubs cd).log.caughtErrors
            = csubs.filterMap (callCaughtEntry cd)) := by
  refine ⟨notifyMessageSubscribers_invocations msubs m,
    notifyMessageSubscribers_caughtErrors msubs m,
    notifyCallSubscribers_invocations csubs _,
    notifyCallSubscribers_caughtErrors csubs _, ?_⟩
  intro h
  constructor
  · simp [handleIncomingCall, h, notifyCallSubscribers_invocations]
  · simp [handleIncomingCall, h, notifyCallSubscribers_caughtErrors]

/-- Witness for C1 at concrete inputs: a throwing subscriber ahead of a
normal one does not stop the dispatch, and its error is logged. -/
theorem dispatch_isolates_callback_errors_witness :
    (handleReceiveMessage [throwingMsgCallback, okMsgCallback] sampleMessage 0).log.invocations
        = [(1, sampleMessage), (0, sampleMessage)]
    ∧ (handleReceiveMessage [throwingMsgCallback, okMsgCallback] sampleMessage 0).log.caughtErrors
        = [(1, "cb failed")]
    ∧ (handleIncomingCall grantedEnv ClientPlatform.android ClientAppState.active false
        [throwingCallCallback, okCallCallback] sampleCallData).log.invocations
        = [(1, sampleCallData), (0, sampleCallData)] := by
  have h := dispatch_isolates_callback_errors [throwingMsgCallback, okMsgCallback]
    sampleMessage 0 [throwingCallCallback, okCallCallback] sampleCallData
    grantedEnv ClientPlatform.android ClientAppState.active false
  exact ⟨h.1.trans rfl, h.2.1.trans rfl, ((h.2.2.2.2 rfl).1).trans rfl⟩

/-- C2: an inbound message wire event, on the primary name or its alias,
fires exactly the one message handler, and that handler increments the
unread counter by exactly one whatever the subscriber set is. -/
theorem message_event_increments_unread_once
    (eventName : String) (subs : List MsgCallback) (m : Message) (unread : Nat)
    (h : eventName = "receive_message" ∨ eventName = "message") :
    firedHandlers eventName true = [HandlerTag.receiveMessage]
    ∧ (handleReceiveMessage subs m unread).newUnreadCount = unread + 1 := by
  constructor
  · rcases h with rfl | rfl
    · rfl
    · rfl
  · rfl

/-- Witness for C2 on the alias event name with one subscriber. -/
theorem message_event_increments_unread_once_witness :
    firedHandlers "message" true = [HandlerTag.receiveMessage]
    ∧ (handleReceiveMessage [okMsgCallback] sampleMessage 3).newUnreadCount = 4 :=
  message_event_increments_unread_once "message" [okMsgCallback] sampleMessage 3
    (Or.inr rfl)

/-- C3: when the permission check resolves to not granted and the follow-up
request is also not granted, the incoming-call handler shows exactly one
prompt and invokes no call subscriber; when the check throws, or the check
resolves to not granted and the request throws, the handler continues and
dispatches the event to every registered call subscriber. -/
theorem incoming_call_permission_gate
    (env : PermissionEnv) (platform : ClientPlatform) (appState : ClientAppState)
    (socketDisconnected : Bool) (subs : List CallCallback) (cd : CallData) :
    (env.checkResult = Except.ok false → env.requestResult = Except.ok false →
      (handleIncomingCall env platform appState socketDisconnected subs cd).permissionPrompts = 1
      ∧ (handleIncomingCall env platform appState socketDisconnected subs cd).log.invocations = [])
    ∧ (permCallThrew env.checkResult = true →
      (handleIncomingCall env platform appState socketDisconnected subs cd).log.invocations
        = subs.map (fun cb => (cb.id, cd)))
    ∧ (env.checkResult = Except.ok false → permCallThrew env.requestResult = true →
      (handleIncomingCall env platform appState socketDisconnected subs cd).log.invocations
        = subs.map (fun cb => (cb.id, cd))) := by
  refine ⟨?_, ?_, ?_⟩
  · intro h1 h2
    constructor
    · simp [handleIncomingCall, incomingCallPermissionPhase, h1, h2]
    · simp [handleIncomingCall, incomingCallPermissionPhase, h1, h2]
  · intro h
    cases hc : env.checkResult with
    | ok b => simp [permCallThrew, hc] at h
    | error e =>
      simp [handleIncomingCall, incomingCallPermissionPhase, hc,
        notifyCallSubscribers_invocations]
  · intro h1 h2
    cases hr : env.requestResult with
    | ok b => simp [permCallThrew, hr] at h2
    | error e =>
      simp [handleIncomingCall, incomingCallPermissionPhase, h1, hr,
        notifyCallSubscribers_invocations]

/-- Witness for C3: the denial path prompts once and dispatches nothing;
the throwing-check path still dispatches to the registered subscriber. -/
theorem incoming_call_permission_gate_witness :
    (handleIncomingCall deniedEnv ClientPlatform.android ClientAppState.active false
        [okCallCallback] sampleCallData).permissionPrompts = 1
    ∧ (handleIncomingCall deniedEnv ClientPlatform.android ClientAppState.active false
        [okCallCallback] sampleCallData).log.invocations = []
    ∧ (handleIncomingCall throwingCheckEnv ClientPlatform.android ClientAppState.active false
        [okCallCallback] sampleCallData).log.invocations = [(0, sampleCallData)] := by
  refine ⟨?_, ?_, ?_⟩
  · exact ((incoming_call_permission_gate deniedEnv ClientPlatform.android
      ClientAppState.active false [okCallCallback] sampleCallData).1 rfl rfl).1
  · exact ((incoming_call_permission_gate deniedEnv ClientPlatform.android
      ClientAppState.active false [okCallCallback] sampleCallData).1 rfl rfl).2
  · exact ((incoming_call_permission_gate throwingCheckEnv ClientPlatform.android
      ClientAppState.active false [okCallCallback] sampleCallData).2.1 rfl).trans rfl

/-- C4: the call-cancelled handler notifies every registered call
subscriber exactly once, in registration order, with the original payload
augmented with the cancellation tag; the handler takes no permission
environment and no activity state and keeps no per-call history, so its
behavior is independent of those. -/
theorem call_cancelled_fanout
    (subs : List CallCallback) (cd : CallData)
    (h : (subs.map (fun cb => cb.id)).Nodup) :
    namedHandlers "call_cancelled" = [HandlerTag.callCancelled]
    ∧ (handleCallCancelled subs cd).invocations
        = subs.map (fun cb => (cb.id, { cd with eventType := some "call_cancelled" }))
    ∧ ∀ cb ∈ subs,
        (handleCallCancelled subs cd).invocations.count
          (cb.id, { cd with eventType := some "call_cancelled" }) = 1 := by
  refine ⟨rfl, notifyCallSubscribers_invocations subs _, ?_⟩
  intro cb hcb
  rw [show (handleCallCancelled subs cd).invocations
      = subs.map (fun c => (c.id, { cd with eventType := some "call_cancelled" }))
    from notifyCallSubscribers_invocations subs _]
  rw [count_map_pair]
  exact List.count_eq_one_of_mem h (List.mem_map.mpr ⟨cb, hcb, rfl⟩)

/-- Witness for C4: with two registered subscribers (one of which throws),
each is invoked exactly once with the tagged payload. -/
theorem call_cancelled_fanout_witness :
    (handleCallCancelled [okCallCallback, throwingCallCallback] sampleCallData).invocations.count
        (0, { sampleCallData with eventType := some "call_cancelled" }) = 1 :=
  (call_cancelled_fanout [okCallCallback, throwingCallCallback] sampleCallData
      (by decide)).2.2 okCallCallback
    (List.mem_cons_self okCallCallback [throwingCallCallback])

/-- C5: evaluation of the dual listener paths at a concrete inbound
`incoming_call` wire event: the `onAny` fallback fires in addition to the
named listener, so one wire event, one granted-permission environment and
one registered subscriber yield two invocations of that subscriber — the
no-double-delivery property fails on the code. -/
theorem incoming_call_wire_double_delivery :
    firedHandlers "incoming_call" true
        = [HandlerTag.incomingCall, HandlerTag.incomingCall]
    ∧ (wireIncomingCallInvocations grantedEnv ClientPlatform.android
        ClientAppState.active false [okCallCallback] sampleCallData).count
        (0, sampleCallData) = 2 := by
  constructor
  · rfl
  · rfl

/-- C6: in every trace of subscribe/unsubscribe actions interleaved with
publishes, the dispatch snapshot of a publish is exactly the registry
built by the preceding prefix, and a callback occurs in that snapshot
exactly once when the declarative registration status (last action on it
was a subscribe) holds and zero times otherwise — so it is invoked exactly
once per event published while registered, never after its unsubscribe,
and duplicate registration never yields a duplicate invocation. -/
theorem subscribe_publish_exact_delivery (pre post : List SubOp) (e c : Nat) :
    runLog (pre ++ SubOp.publish e :: post)
        = runLog pre ++ (runSubs pre, e) :: runLogFrom (runSubs pre) post
    ∧ (runSubs pre).count c = (if specRegistered pre c = true then 1 else 0) := by
  constructor
  · rw [runLog, runLogFrom_append]
    rfl
  · exact count_runSubs pre c

/-- C7: credential normalization strips exactly the scheme prefix from a
decorated token, passes through any other token unchanged, and the
handshake auth token is exactly the normalized value. -/
theorem credential_normalization_correct (t : String) :
    (jsStartsWith t "Bearer " = true → "Bearer " ++ processToken t = t)
    ∧ (jsStartsWith t "Bearer " = false → processToken t = t)
    ∧ (ioConfig t).auth.token = processToken t := by
  refine ⟨?_, ?_, rfl⟩
  · intro h
    rw [processToken, if_pos h]
    have hp : "Bearer ".data <+: t.data := List.isPrefixOf_iff_prefix.mp h
    have happ := List.prefix_iff_eq_append.mp hp
    have h7 : ("Bearer ".data).length = 7 := rfl
    rw [h7] at happ
    apply String.ext
    rw [String.data_append, String.data_drop]
    exact happ
  · intro h
    simp [processToken, h]

/-- Witness for C7: a decorated token loses exactly the prefix, an
undecorated one is unchanged. -/
theorem credential_normalization_witness :
    "Bearer " ++ processToken "Bearer abc" = "Bearer abc"
    ∧ processToken "U_12345" = "U_12345" :=
  ⟨(credential_normalization_correct "Bearer abc").1 rfl,
   (credential_normalization_correct "U_12345").2.1 rfl⟩

/-- C8: whatever the raw token, the connection configuration always has
reconnection enabled with 30 attempts, 100 ms initial delay, 800 ms
maximum delay, randomization factor one tenth, and a 3000 ms connection
timeout. -/
theorem io_reconnection_policy (t : String) :
    (ioConfig t).reconnection = true
    ∧ (ioConfig t).reconnectionAttempts = 30
    ∧ (ioConfig t).reconnectionDelay = 100
    ∧ (ioConfig t).reconnectionDelayMax = 800
    ∧ (ioConfig t).randomizationFactor = 1 / 10
    ∧ (ioConfig t).timeout = 3000 :=
  ⟨rfl, rfl, rfl, rfl, rfl, rfl⟩

/-- C9: the connect handler emits nothing synchronously and schedules
exactly one `get_offline_messages` request, behind a strictly positive
(1000 ms) settle delay. -/
theorem offline_backlog_after_settle_delay :
    handleConnect.immediateEmits = []
    ∧ handleConnect.scheduledEmits = [(1000, "get_offline_messages")]
    ∧ (handleConnect.scheduledEmits.map Prod.snd).count "get_offline_messages" = 1
    ∧ (0 : Nat) < 1000 :=
  ⟨rfl, rfl, rfl, by decide⟩

/-- C10: every guarded outbound operation is a silent no-op when the
socket is absent or not connected: no emission and no state change. -/
theorem outbound_noop_when_disconnected (st : ProviderState)
    (messageData conversationId callId recipientId : String)
    (convOpt : Option String)
    (h : socketReady st = false) :
    sendMessage st messageData = (st, [])
    ∧ joinConversation st conversationId = (st, [])
    ∧ leaveConversation st conversationId = (st, [])
    ∧ rejectCall st callId recipientId convOpt = (st, []) := by
  refine ⟨?_, ?_, ?_, ?_⟩ <;>
    simp [sendMessage, joinConversation, leaveConversation, rejectCall, h]

/-- Provider state with a live socket object but a dropped connection. -/
def disconnectedState : ProviderState :=
  { socketPresent := true, isConnected := false, unreadMessageCount := 5,
    messageSubscribers := [1], callSubscribers := [2] }

/-- Witness for C10 at a concrete not-connected state. -/
theorem outbound_noop_when_disconnected_witness :
    sendMessage disconnectedState "hello" = (disconnectedState, [])
    ∧ joinConversation disconnectedState "conv" = (disconnectedState, [])
    ∧ leaveConversation disconnectedState "conv" = (disconnectedState, [])
    ∧ rejectCall disconnectedState "c1" "r1" none = (disconnectedState, []) :=
  outbound_noop_when_disconnected disconnectedState "hello" "conv" "c1" "r1" none rfl

end SocketContext
